import Mathlib

set_option autoImplicit false

/-!
Verification of the `tmc-stepper-driver` crate against its design specification.

The crate's `src/lib.rs` declares a fieldless `pub struct Config {}` and a
`Driver` trait of eighteen methods; the chip-specific implementation module
(`tmc2209`, feature-gated) is not part of the published sources.  We therefore
embed two layers:

1. the trait surface exactly as declared in `src/lib.rs` (argument and return
   types of every method, and the fieldless `Config`), and
2. a controller model built from the design specification for the behavioral
   properties (staged configuration with atomic push, diagnostic latch,
   clock-source fallback), since the code realizing that behavior is not in
   the sources.
-/

/-! ## Part 1: the `Driver` trait surface, embedded from `src/lib.rs` -/

/-- Rust types occurring in the `Driver` trait of `src/lib.rs`.  `resultTy` and
`optionTy` are included so that the absence of an error channel is a statement,
not a typing accident. -/
inductive RustTy where
  | unitTy
  | boolTy
  | u8Ty
  | u32Ty
  | configTy
  | resultTy (ok err : RustTy)
  | optionTy (t : RustTy)
deriving DecidableEq

/-- The eighteen methods declared by the `Driver` trait in `src/lib.rs`. -/
inductive TraitMethod where
  | init
  | defaults
  | get_config
  | set_spi_speed
  | external_clock_enable
  | is_enabled
  | push
  | analog_scaling_enable
  | is_analog_scaling_enabled
  | sense_resistor_enable
  | is_sense_resistor_enabled
  | stealthchop_pwm_mode_enable
  | enc_commutation
  | shaft
  | has_diag_error
  | diag_error_reset
  | has_overtemp_prewarning
  | toff
deriving DecidableEq

/-- Argument types of each trait method beyond the `&self` receiver,
transcribed from `src/lib.rs`. -/
def argTys : TraitMethod → List RustTy
  | .init => []
  | .defaults => []
  | .get_config => []
  | .set_spi_speed => [.u32Ty]
  | .external_clock_enable => [.boolTy]
  | .is_enabled => []
  | .push => []
  | .analog_scaling_enable => [.boolTy]
  | .is_analog_scaling_enabled => []
  | .sense_resistor_enable => [.boolTy]
  | .is_sense_resistor_enabled => []
  | .stealthchop_pwm_mode_enable => [.boolTy]
  | .enc_commutation => [.boolTy]
  | .shaft => [.boolTy]
  | .has_diag_error => []
  | .diag_error_reset => []
  | .has_overtemp_prewarning => []
  | .toff => [.u8Ty]

/-- Return type of each trait method, transcribed from `src/lib.rs`
(a Rust method with no `-> T` returns the unit type). -/
def retTy : TraitMethod → RustTy
  | .init => .unitTy
  | .defaults => .configTy
  | .get_config => .configTy
  | .set_spi_speed => .unitTy
  | .external_clock_enable => .unitTy
  | .is_enabled => .boolTy
  | .push => .unitTy
  | .analog_scaling_enable => .unitTy
  | .is_analog_scaling_enabled => .boolTy
  | .sense_resistor_enable => .unitTy
  | .is_sense_resistor_enabled => .boolTy
  | .stealthchop_pwm_mode_enable => .unitTy
  | .enc_commutation => .unitTy
  | .shaft => .unitTy
  | .has_diag_error => .boolTy
  | .diag_error_reset => .unitTy
  | .has_overtemp_prewarning => .boolTy
  | .toff => .unitTy

/-- A Rust type carries an error channel when it is `Result` or `Option`. -/
def isErrorCarrying : RustTy → Bool
  | .resultTy _ _ => true
  | .optionTy _ => true
  | _ => false

/-- The `Config` struct of `src/lib.rs`: `pub struct Config {}` — no fields. -/
structure Config where
deriving DecidableEq

/-- A Lean model of an arbitrary implementation of the `Driver` trait.  Every
method takes `&self`; implementations mutate through interior mutability, so a
mutating method is modelled as a state transformer `sigma -> sigma` and an
observer as a function into its (pure) Rust return type, exactly following the
signatures in `src/lib.rs`. -/
structure DriverImpl (σ : Type) where
  init : σ → σ
  defaults : σ → Config
  get_config : σ → Config
  set_spi_speed : σ → Nat → σ
  external_clock_enable : σ → Bool → σ
  is_enabled : σ → Bool
  push : σ → σ
  analog_scaling_enable : σ → Bool → σ
  is_analog_scaling_enabled : σ → Bool
  sense_resistor_enable : σ → Bool → σ
  is_sense_resistor_enabled : σ → Bool
  stealthchop_pwm_mode_enable : σ → Bool → σ
  enc_commutation : σ → Bool → σ
  shaft : σ → Bool → σ
  has_diag_error : σ → Bool
  diag_error_reset : σ → σ
  has_overtemp_prewarning : σ → Bool
  toff : σ → Nat → σ

/-! ## Part 2: the controller model, built from the design specification

The behavior (staged configuration, push protocol, diagnostic latch, clock
negotiation) lives in the feature-gated chip module that is absent from the
sources, so the definitions below are modelled from the specification text. -/

/-- Modelled from the spec: the error kinds of the error-handling design
(InvalidParameter, NotInitialized, TransportError, PushPartiallyFailed);
the published trait declares no error channel, so these exist only at the
design level. -/
inductive DriverError where
  | invalidParameter
  | notInitialized
  | transportError
  | pushPartiallyFailed
deriving DecidableEq

/-- Modelled from the spec: the clock-source negotiation states
{Internal, ExternalRequested, ExternalLocked, FallbackInternal}. -/
inductive ClockSourceState where
  | internal
  | externalRequested
  | externalLocked
  | fallbackInternal
deriving DecidableEq

/-- Modelled from the spec: the semantic Configuration record (not
register-bit-exact).  `off_time` is a code in [0,15]; `commutation_mask` is an
opaque bitmask passed through unmodified. -/
structure Configuration where
  spi_clock_hz : Nat
  external_clock_enabled : Bool
  analog_scaling_enabled : Bool
  sense_resistor_enabled : Bool
  stealthchop_enabled : Bool
  shaft_inverted : Bool
  commutation_mask : Nat
  off_time : Nat
deriving DecidableEq

/-- Modelled from the spec: the controller owns all mutable state — the
candidate (staged) configuration, the current (last successfully pushed)
configuration, the diagnostic latch, the last observed thermal pre-warning,
and the clock-source state. -/
structure Controller where
  initialized : Bool
  candidate : Configuration
  current : Configuration
  diag_latched : Bool
  overtemp_prewarning : Bool
  clock : ClockSourceState
deriving DecidableEq

/-- Modelled from the spec: one transport sub-write per Configuration field.
Register addresses are chip-specific (the register map is an opaque codec), so
sub-writes are identified by the field they carry; `diagAck` is the
reset-acknowledgment write of the diagnostic monitor. -/
inductive FieldWrite where
  | spiClock (hz : Nat)
  | extClock (b : Bool)
  | commutation (mask : Nat)
  | shaftDir (b : Bool)
  | analogScaling (b : Bool)
  | senseResistor (b : Bool)
  | stealthchop (b : Bool)
  | offTime (v : Nat)
  | diagAck
deriving DecidableEq

/-- Result of one controller operation: the controller after the call, the
reported outcome, and the transport sub-writes the operation performed. -/
structure OpResult (α : Type) where
  ctrl : Controller
  out : Except DriverError α
  writes : List FieldWrite

/-- Modelled from the spec: the chip-supported SPI frequency bounds, validated
at set time.  The concrete bounds are chip-specific; the model fixes
representative ones (1 Hz to 10 MHz), below the `u32` range so out-of-domain
arguments exist. -/
def spiClockMin : Nat := 1

/-- Modelled from the spec: upper chip-supported SPI frequency bound. -/
def spiClockMax : Nat := 10000000

/-- Modelled from the spec: whether an SPI frequency is inside the
chip-supported range. -/
def spiClockSupported (hz : Nat) : Bool :=
  decide (spiClockMin ≤ hz) && decide (hz ≤ spiClockMax)

/-- Modelled from the spec: the factory-recommended default configuration.
Concrete values are chip-specific; the model fixes representative in-domain
values.  Pure: a constant, independent of any controller state. -/
def defaultConfig : Configuration :=
  { spi_clock_hz := 1000000
    external_clock_enabled := false
    analog_scaling_enabled := false
    sense_resistor_enabled := false
    stealthchop_enabled := false
    shaft_inverted := false
    commutation_mask := 0
    off_time := 3 }

/-- A freshly constructed controller: not initialized, candidate and current
configuration seeded with the defaults, no fault latched, internal clock. -/
def mkController : Controller :=
  { initialized := false
    candidate := defaultConfig
    current := defaultConfig
    diag_latched := false
    overtemp_prewarning := false
    clock := .internal }

/-- Modelled from the spec: `init` brings the chip out of reset so register
writes are accepted; afterwards the other operations are available. -/
def init (c : Controller) : OpResult Unit :=
  ⟨{ c with initialized := true }, .ok (), []⟩

/-- Modelled from the spec: `defaults` returns the factory-recommended
configuration; pure, deterministic, no hardware access (no transport writes),
in any controller state. -/
def defaults (_c : Controller) : Configuration × List FieldWrite :=
  (defaultConfig, [])

/-- Modelled from the spec: `get_config` returns the controller's best-known
current configuration — the last successfully pushed one, or the defaults if
none has been pushed yet (the fresh controller seeds `current` with the
defaults).  A pure read, no hardware access. -/
def get_config (c : Controller) : Configuration :=
  c.current

/-- Modelled from the spec: `set_spi_speed` validates the frequency against
the chip-supported range at set time and mutates only the candidate
configuration; it never touches the transport. -/
def set_spi_speed (hz : Nat) (c : Controller) : OpResult Unit :=
  if c.initialized = false then ⟨c, .error .notInitialized, []⟩
  else if spiClockSupported hz = false then ⟨c, .error .invalidParameter, []⟩
  else ⟨{ c with candidate := { c.candidate with spi_clock_hz := hz } }, .ok (), []⟩

/-- Modelled from the spec: `external_clock_enable` records the caller's clock
intent in the candidate configuration and drives the negotiation state:
enabling moves Internal to ExternalRequested, disabling returns to Internal
unconditionally.  The CS-pin side effect is physical signaling, not an SPI
transport write. -/
def external_clock_enable (b : Bool) (c : Controller) : OpResult Unit :=
  if c.initialized = false then ⟨c, .error .notInitialized, []⟩
  else if b then
    ⟨{ c with candidate := { c.candidate with external_clock_enabled := true }
              clock := .externalRequested }, .ok (), []⟩
  else
    ⟨{ c with candidate := { c.candidate with external_clock_enabled := false }
              clock := .internal }, .ok (), []⟩

/-- Modelled from the spec: the chip's autonomous timeout transition — if no
valid external clock edge is detected within the fixed hardware timeout
window, ExternalRequested falls back to FallbackInternal; with a valid edge it
locks.  Other states are unaffected. -/
def clockTimeoutStep (edgeDetected : Bool) (c : Controller) : Controller :=
  match c.clock with
  | .externalRequested =>
      { c with clock := if edgeDetected then .externalLocked else .fallbackInternal }
  | _ => c

/-- Modelled from the spec: the realized clock semantics of a negotiation
state — FallbackInternal behaves as Internal for all subsequent reads. -/
def effectiveInternal : ClockSourceState → Bool
  | .internal => true
  | .fallbackInternal => true
  | .externalRequested => false
  | .externalLocked => false

/-- Modelled from the spec: `is_enabled` queries whether the output bridges
are active, derived from the last successfully pushed `off_time` being
non-zero. -/
def is_enabled (c : Controller) : Bool :=
  decide (c.current.off_time ≠ 0)

/-- Modelled from the spec: generic boolean setter on the candidate
configuration — mutates only the in-memory candidate, never the transport. -/
def analog_scaling_enable (b : Bool) (c : Controller) : OpResult Unit :=
  if c.initialized = false then ⟨c, .error .notInitialized, []⟩
  else ⟨{ c with candidate := { c.candidate with analog_scaling_enabled := b } }, .ok (), []⟩

/-- Modelled from the spec: candidate-only setter for the internal sense
resistor toggle. -/
def sense_resistor_enable (b : Bool) (c : Controller) : OpResult Unit :=
  if c.initialized = false then ⟨c, .error .notInitialized, []⟩
  else ⟨{ c with candidate := { c.candidate with sense_resistor_enabled := b } }, .ok (), []⟩

/-- Modelled from the spec: candidate-only setter for stealthChop PWM mode. -/
def stealthchop_pwm_mode_enable (b : Bool) (c : Controller) : OpResult Unit :=
  if c.initialized = false then ⟨c, .error .notInitialized, []⟩
  else ⟨{ c with candidate := { c.candidate with stealthchop_enabled := b } }, .ok (), []⟩

/-- Modelled from the spec: the commutation mask is an opaque bitmask passed
through unmodified into the candidate configuration. -/
def enc_commutation (mask : Nat) (c : Controller) : OpResult Unit :=
  if c.initialized = false then ⟨c, .error .notInitialized, []⟩
  else ⟨{ c with candidate := { c.candidate with commutation_mask := mask } }, .ok (), []⟩

/-- Modelled from the spec: candidate-only setter inverting the motor
direction. -/
def shaft (b : Bool) (c : Controller) : OpResult Unit :=
  if c.initialized = false then ⟨c, .error .notInitialized, []⟩
  else ⟨{ c with candidate := { c.candidate with shaft_inverted := b } }, .ok (), []⟩

/-- Modelled from the spec: `toff` validates `off_time` against [0,15] and
mutates only the candidate configuration; out-of-domain values fail with
InvalidParameter, leave the candidate unchanged and never touch the
transport. -/
def toff (v : Nat) (c : Controller) : OpResult Unit :=
  if c.initialized = false then ⟨c, .error .notInitialized, []⟩
  else if 15 < v then ⟨c, .error .invalidParameter, []⟩
  else ⟨{ c with candidate := { c.candidate with off_time := v } }, .ok (), []⟩

/-- Modelled from the spec: `push` serializes the full candidate configuration
into one transport sub-write per field, current-scaling fields before the PWM
mode, output `off_time` last. -/
def pushWrites (cfg : Configuration) : List FieldWrite :=
  [ .spiClock cfg.spi_clock_hz
  , .extClock cfg.external_clock_enabled
  , .commutation cfg.commutation_mask
  , .shaftDir cfg.shaft_inverted
  , .analogScaling cfg.analog_scaling_enabled
  , .senseResistor cfg.sense_resistor_enabled
  , .stealthchop cfg.stealthchop_enabled
  , .offTime cfg.off_time ]

/-- Index of the first failing sub-write under the simulated transport-failure
pattern `fail`, if any sub-write of the list fails. -/
def firstFailure (fail : Nat → Bool) (ws : List FieldWrite) : Option Nat :=
  (List.range ws.length).find? fail

/-- Modelled from the spec: the push protocol.  `fail i = true` simulates a
transport failure on the i-th sub-write.  All sub-writes strictly before the
first failure reach the transport (the hardware may be partially written);
the current-configuration snapshot advances to the candidate only when every
sub-write succeeded, and a failure is reported as PushPartiallyFailed with the
candidate left intact for retry. -/
def push (fail : Nat → Bool) (c : Controller) : OpResult Unit :=
  if c.initialized = false then ⟨c, .error .notInitialized, []⟩
  else
    match firstFailure fail (pushWrites c.candidate) with
    | some n => ⟨c, .error .pushPartiallyFailed, (pushWrites c.candidate).take n⟩
    | none => ⟨{ c with current := c.candidate }, .ok (), pushWrites c.candidate⟩

/-- Modelled from the spec: `has_diag_error` observes the DIAG signal
(`physicalDiag` is the live hardware condition at this poll) and drives the
Normal-to-Faulted latch transition; while faulted it keeps returning true with
no further state change, independent of the physical condition. -/
def has_diag_error (physicalDiag : Bool) (c : Controller) : Bool × Controller :=
  let latched := c.diag_latched || physicalDiag
  (latched, { c with diag_latched := latched })

/-- A sequence of `has_diag_error` polls under a list of live hardware
conditions: returns the observed values and the final controller. -/
def pollDiag : List Bool → Controller → List Bool × Controller
  | [], c => ([], c)
  | p :: ps, c =>
      let r := has_diag_error p c
      let rest := pollDiag ps r.2
      (r.1 :: rest.1, rest.2)

/-- Modelled from the spec: `diag_error_reset` — the only Faulted-to-Normal
transition.  When already Normal it is a no-op that does not fail; when
Faulted it issues the hardware reset-acknowledgment write (`transportOk`
simulates that write's outcome) and clears the latch only on success. -/
def diag_error_reset (transportOk : Bool) (c : Controller) : OpResult Unit :=
  if c.initialized = false then ⟨c, .error .notInitialized, []⟩
  else if c.diag_latched = false then ⟨c, .ok (), []⟩
  else if transportOk then ⟨{ c with diag_latched := false }, .ok (), [.diagAck]⟩
  else ⟨c, .error .transportError, [.diagAck]⟩

/-- Modelled from the spec: `has_overtemp_prewarning` is an independent live
boolean read of the thermal pre-warning, not part of the latch state machine;
the controller records the last observed value. -/
def has_overtemp_prewarning (physicalOtpw : Bool) (c : Controller) : Bool × Controller :=
  (physicalOtpw, { c with overtemp_prewarning := physicalOtpw })

/-- The mutating and transport-touching operations of the controller, applied
to one state with fixed arguments; used to state the before-`init` behavior
uniformly. -/
def mutatingOps (hz v mask : Nat) (b transportOk : Bool) (fail : Nat → Bool)
    (c : Controller) : List (OpResult Unit) :=
  [ set_spi_speed hz c
  , external_clock_enable b c
  , analog_scaling_enable b c
  , sense_resistor_enable b c
  , stealthchop_pwm_mode_enable b c
  , enc_commutation mask c
  , shaft b c
  , toff v c
  , push fail c
  , diag_error_reset transportOk c ]

/-! ## Helper lemmas -/

/-- A faulted controller is a fixed point of `has_diag_error`: it reports true
and is left unchanged, whatever the live physical condition. -/
theorem has_diag_error_of_latched (c : Controller) (p : Bool)
    (h : c.diag_latched = true) : has_diag_error p c = (true, c) := by
  cases c
  simp_all [has_diag_error]

/-- Polling a faulted controller any number of times reports only true and
never changes the controller. -/
theorem pollDiag_of_latched (ps : List Bool) (c : Controller)
    (h : c.diag_latched = true) :
    pollDiag ps c = (ps.map (fun _ => true), c) := by
  induction ps with
  | nil => simp [pollDiag]
  | cons p ps ih =>
      simp [pollDiag, has_diag_error_of_latched c p h, ih]

/-! ## Claim theorems -/

/-- C8: `defaults` is pure and deterministic — it performs no transport
access, and any two calls, from any two controller states, return equal
Configuration values. -/
theorem defaults_pure_deterministic :
    ∀ a b : Controller,
      (defaults a).1 = (defaults b).1 ∧ (defaults a).2 = [] :=
  fun _ _ => ⟨rfl, rfl⟩

/-- C9: no method of the `Driver` trait has an error channel — every return
type is the Rust unit, bool, or `Config` type, never `Result` or `Option`, so
no call can report InvalidParameter, NotInitialized, TransportError, or
PushPartiallyFailed to the caller; the argument types carry no error channel
either. -/
theorem driver_trait_no_error_channel :
    ∀ m : TraitMethod,
      (retTy m = .unitTy ∨ retTy m = .boolTy ∨ retTy m = .configTy) ∧
      isErrorCarrying (retTy m) = false := by
  intro m
  cases m <;> simp [retTy, isErrorCarrying]

/-- C10: the `Config` struct of `src/lib.rs` has no fields, so all `Config`
values are equal; consequently, for every implementation of the `Driver`
trait and every pair of internal states, `get_config` returns a value equal
to `defaults`, and no configuration field is observable through the public
interface. -/
theorem config_fieldless_get_config_eq_defaults :
    (∀ a b : Config, a = b) ∧
    ∀ (σ : Type) (d : DriverImpl σ) (s t : σ), d.get_config s = d.defaults t := by
  refine ⟨fun a b => ?_, fun σ d s t => ?_⟩
  · cases a; cases b; rfl
  · cases d.get_config s; cases d.defaults t; rfl

/-- C2: the DIAG fault latch is sticky — once a `has_diag_error` poll returns
true, every later poll returns true whatever the live physical condition, and
none of those later polls changes the controller state (they are pure reads
while faulted); only `diag_error_reset` leaves the faulted state. -/
theorem diag_latch_sticky (c : Controller) (p : Bool) (ps : List Bool)
    (h : (has_diag_error p c).1 = true) :
    (pollDiag ps (has_diag_error p c).2).1.all id = true ∧
    (pollDiag ps (has_diag_error p c).2).2 = (has_diag_error p c).2 := by
  have hl : (has_diag_error p c).2.diag_latched = true := by
    simp only [has_diag_error] at h ⊢
    exact h
  rw [pollDiag_of_latched ps _ hl]
  simp

/-- Witness for C2: a fresh controller polled while the physical DIAG
condition is asserted latches, and two later polls with the condition cleared
still report true and leave the state unchanged. -/
theorem diag_latch_sticky_witness :
    (pollDiag [false, false] (has_diag_error true mkController).2).1.all id = true ∧
    (pollDiag [false, false] (has_diag_error true mkController).2).2 =
      (has_diag_error true mkController).2 :=
  diag_latch_sticky mkController true [false, false] (by decide)

/-- C1: push is all-or-nothing — if the simulated transport fails on any
sub-write of `push`, the outcome is the PushPartiallyFailed error, the
controller is unchanged, `get_config` still returns the pre-push
configuration (never a partially-applied mix), and the candidate is left
intact for a retry. -/
theorem push_all_or_nothing (c : Controller) (fail : Nat → Bool) (n : Nat)
    (hinit : c.initialized = true)
    (hn : n < (pushWrites c.candidate).length) (hf : fail n = true) :
    (push fail c).out = .error .pushPartiallyFailed ∧
    (push fail c).ctrl = c ∧
    get_config (push fail c).ctrl = get_config c ∧
    (push fail c).ctrl.candidate = c.candidate := by
  have hsome : (firstFailure fail (pushWrites c.candidate)).isSome := by
    unfold firstFailure
    rw [List.find?_isSome]
    exact ⟨n, List.mem_range.mpr hn, hf⟩
  obtain ⟨m, hm⟩ := Option.isSome_iff_exists.mp hsome
  simp [push, hinit, hm, get_config]

/-- Witness for C1: an initialized fresh controller pushed under a transport
that fails on the fourth sub-write reports PushPartiallyFailed and keeps the
pre-push snapshot and candidate. -/
theorem push_all_or_nothing_witness :
    (push (fun i => decide (i = 3)) (init mkController).ctrl).out =
      .error .pushPartiallyFailed ∧
    (push (fun i => decide (i = 3)) (init mkController).ctrl).ctrl =
      (init mkController).ctrl ∧
    get_config (push (fun i => decide (i = 3)) (init mkController).ctrl).ctrl =
      get_config (init mkController).ctrl ∧
    (push (fun i => decide (i = 3)) (init mkController).ctrl).ctrl.candidate =
      (init mkController).ctrl.candidate :=
  push_all_or_nothing (init mkController).ctrl (fun i => decide (i = 3)) 3
    rfl (by decide) (by decide)

/-- C3: for every `off_time` in [0,15], `toff` succeeds, a subsequent `push`
with no transport failure succeeds, and `get_config` then returns a
configuration whose `off_time` equals the value set. -/
theorem toff_push_get_config (c : Controller) (v : Nat) (fail : Nat → Bool)
    (hinit : c.initialized = true) (hv : v ≤ 15)
    (hfail : ∀ i, fail i = false) :
    (toff v c).out = .ok () ∧
    (push fail (toff v c).ctrl).out = .ok () ∧
    (get_config (push fail (toff v c).ctrl).ctrl).off_time = v := by
  have hnlt : ¬ 15 < v := Nat.not_lt.mpr hv
  have hctrl : (toff v c).ctrl =
      { c with candidate := { c.candidate with off_time := v } } := by
    simp [toff, hinit, hnlt]
  have hnone : ∀ cfg : Configuration, firstFailure fail (pushWrites cfg) = none := by
    intro cfg
    unfold firstFailure
    apply List.find?_eq_none.mpr
    intro i _
    simp [hfail i]
  refine ⟨by simp [toff, hinit, hnlt], ?_, ?_⟩ <;>
    simp [hctrl, push, hinit, hnone, get_config]

/-- Witness for C3: setting `off_time = 7` on an initialized fresh controller
and pushing over a fault-free transport makes `get_config` report 7. -/
theorem toff_push_get_config_witness :
    (toff 7 (init mkController).ctrl).out = .ok () ∧
    (push (fun _ => false) (toff 7 (init mkController).ctrl).ctrl).out = .ok () ∧
    (get_config (push (fun _ => false)
      (toff 7 (init mkController).ctrl).ctrl).ctrl).off_time = 7 :=
  toff_push_get_config (init mkController).ctrl 7 (fun _ => false)
    rfl (by decide) (fun _ => rfl)

/-- C4: out-of-domain setter arguments are rejected with InvalidParameter,
leave the candidate configuration unchanged and perform no transport access:
`toff` with `off_time > 15`, and likewise `set_spi_speed` with a frequency
outside the chip-supported bounds (the remaining setters take booleans, whose
whole domain is valid). -/
theorem invalid_setter_rejected (c : Controller) (v hz : Nat)
    (hinit : c.initialized = true) (hv : 15 < v)
    (hhz : spiClockSupported hz = false) :
    (toff v c).out = .error .invalidParameter ∧
    (toff v c).ctrl = c ∧
    (toff v c).writes = [] ∧
    (set_spi_speed hz c).out = .error .invalidParameter ∧
    (set_spi_speed hz c).ctrl = c ∧
    (set_spi_speed hz c).writes = [] := by
  simp [toff, set_spi_speed, hinit, hv, hhz]

/-- Witness for C4: `toff 16` and `set_spi_speed 0` on an initialized fresh
controller both fail with InvalidParameter, change nothing and write
nothing. -/
theorem invalid_setter_rejected_witness :
    (toff 16 (init mkController).ctrl).out = .error .invalidParameter ∧
    (toff 16 (init mkController).ctrl).ctrl = (init mkController).ctrl ∧
    (toff 16 (init mkController).ctrl).writes = [] ∧
    (set_spi_speed 0 (init mkController).ctrl).out = .error .invalidParameter ∧
    (set_spi_speed 0 (init mkController).ctrl).ctrl = (init mkController).ctrl ∧
    (set_spi_speed 0 (init mkController).ctrl).writes = [] :=
  invalid_setter_rejected (init mkController).ctrl 16 0 rfl (by decide) (by decide)

/-- C6: `diag_error_reset` in the Normal state (latch clear) is a no-op — it
succeeds whatever the transport would do, changes nothing (no transport write
is even issued), and does not alter the value observed by
`has_overtemp_prewarning`. -/
theorem diag_reset_normal_noop (c : Controller) (transportOk q : Bool)
    (hinit : c.initialized = true) (h : c.diag_latched = false) :
    (diag_error_reset transportOk c).out = .ok () ∧
    (diag_error_reset transportOk c).ctrl = c ∧
    (diag_error_reset transportOk c).writes = [] ∧
    (has_overtemp_prewarning q (diag_error_reset transportOk c).ctrl).1 =
      (has_overtemp_prewarning q c).1 := by
  simp [diag_error_reset, hinit, h]

/-- Witness for C6: resetting an initialized fresh controller (latch clear)
over a failing transport still succeeds, changes nothing, and the thermal
pre-warning read is unaffected. -/
theorem diag_reset_normal_noop_witness :
    (diag_error_reset false (init mkController).ctrl).out = .ok () ∧
    (diag_error_reset false (init mkController).ctrl).ctrl =
      (init mkController).ctrl ∧
    (diag_error_reset false (init mkController).ctrl).writes = [] ∧
    (has_overtemp_prewarning true
      (diag_error_reset false (init mkController).ctrl).ctrl).1 =
      (has_overtemp_prewarning true (init mkController).ctrl).1 :=
  diag_reset_normal_noop (init mkController).ctrl false true rfl rfl

/-- C7: after `external_clock_enable true` with no valid external clock edge
within the chip's timeout window, the clock state is FallbackInternal, whose
realized semantics equal the Internal ones, and `is_enabled` (a
clock-independent status read) returns the same value it would with the
Internal clock source active — all without any `external_clock_enable false`
call. -/
theorem external_clock_fallback (c : Controller) (hinit : c.initialized = true) :
    (clockTimeoutStep false (external_clock_enable true c).ctrl).clock =
      .fallbackInternal ∧
    effectiveInternal
      (clockTimeoutStep false (external_clock_enable true c).ctrl).clock =
      effectiveInternal .internal ∧
    is_enabled (clockTimeoutStep false (external_clock_enable true c).ctrl) =
      is_enabled
        { clockTimeoutStep false (external_clock_enable true c).ctrl with
            clock := .internal } := by
  simp [external_clock_enable, hinit, clockTimeoutStep, effectiveInternal, is_enabled]

/-- Witness for C7: the fallback scenario on an initialized fresh
controller. -/
theorem external_clock_fallback_witness :
    (clockTimeoutStep false
      (external_clock_enable true (init mkController).ctrl).ctrl).clock =
      .fallbackInternal ∧
    effectiveInternal (clockTimeoutStep false
      (external_clock_enable true (init mkController).ctrl).ctrl).clock =
      effectiveInternal .internal ∧
    is_enabled (clockTimeoutStep false
      (external_clock_enable true (init mkController).ctrl).ctrl) =
      is_enabled
        { clockTimeoutStep false
            (external_clock_enable true (init mkController).ctrl).ctrl with
            clock := .internal } :=
  external_clock_fallback (init mkController).ctrl rfl

/-- C5 (amended): every setter and every transport-touching operation
(`set_spi_speed`, `external_clock_enable`, `analog_scaling_enable`,
`sense_resistor_enable`, `stealthchop_pwm_mode_enable`, `enc_commutation`,
`shaft`, `toff`, `push`, `diag_error_reset`) invoked before `init` fails with
NotInitialized, leaves the controller unchanged and performs no transport
access; the pure reads (`defaults`, `get_config`) do not fail. -/
theorem uninitialized_ops_rejected (c : Controller) (hz v mask : Nat)
    (b transportOk : Bool) (fail : Nat → Bool)
    (h : c.initialized = false) :
    ∀ r ∈ mutatingOps hz v mask b transportOk fail c,
      r.out = .error .notInitialized ∧ r.ctrl = c ∧ r.writes = [] := by
  intro r hr
  simp only [mutatingOps, List.mem_cons, List.not_mem_nil, or_false] at hr
  rcases hr with rfl | rfl | rfl | rfl | rfl | rfl | rfl | rfl | rfl | rfl <;>
    simp [set_spi_speed, external_clock_enable, analog_scaling_enable,
      sense_resistor_enable, stealthchop_pwm_mode_enable, enc_commutation,
      shaft, toff, push, diag_error_reset, h]

/-- Witness for C5 (amended): `toff 3` on a fresh, never-initialized
controller fails with NotInitialized, changes nothing and writes nothing. -/
theorem uninitialized_ops_rejected_witness :
    (toff 3 mkController).out = .error .notInitialized ∧
    (toff 3 mkController).ctrl = mkController ∧
    (toff 3 mkController).writes = [] :=
  uninitialized_ops_rejected mkController 1000000 3 0 true true (fun _ => false)
    rfl (toff 3 mkController) (by simp [mutatingOps])

/-- Counterexample for C5 as stated: the claim quantifies over every operation
other than `init`, but `defaults` and `get_config` are operations other than
`init` and, invoked on the concrete uninitialized fresh controller, they do
not fail with NotInitialized — they return the default configuration (their
result type carries no error at all), per the specification's own contract
that `defaults` is pure and deterministic in any controller state. -/
theorem uninitialized_reads_succeed :
    mkController.initialized = false ∧
    defaults mkController = (defaultConfig, []) ∧
    get_config mkController = defaultConfig :=
  ⟨rfl, rfl, rfl⟩
